import Mathlib

/-!
Verification of the adaptive whole-house thermostat coordinator
(`coordinator.py` of the adaptive_clima integration).

The coordinator's pure decision logic is embedded shallowly over exact
rationals: every numeric value the Python code holds in a float is modelled
as a `ℚ`, Python `round` (banker's rounding) is modelled by `roundHalfEven`,
and the Home-Assistant state machine (sensor states, actuator states) is
modelled by an `Env` of read functions.  Actuator service calls are
reified as an `Action` list so that theorems can speak about which writes
a control pass issues.
-/

namespace AdaptiveClima

/-- Sentinel value of `active_zone_id` marking the Suspend pseudo-zone
(`SUSPEND_ZONE_ID` in `coordinator.py`). -/
def SUSPEND_ZONE_ID : String := "__suspend__"

/-- Actuator-kind strings from `const.py`. -/
def ACTUATOR_CLIMATE : String := "climate"

def ACTUATOR_NUMBER : String := "number"

def ACTUATOR_SWITCH : String := "switch"

/-- Python truthiness of an optional string (`if not aid: ...`):
`None` and the empty string are falsy. -/
def truthyOptStr : Option String → Bool
  | none => false
  | some s => !(s == "")

/-- `HouseClimaCoordinator._clamp`. -/
def clamp (v lo hi : ℚ) : ℚ := max lo (min hi v)

/-- Python 3 `round(q)`: round half to even (banker's rounding). -/
def roundHalfEven (q : ℚ) : ℤ :=
  if q - (⌊q⌋ : ℚ) < 1/2 then ⌊q⌋
  else if 1/2 < q - (⌊q⌋ : ℚ) then ⌊q⌋ + 1
  else if ⌊q⌋ % 2 = 0 then ⌊q⌋ else ⌊q⌋ + 1

/-- Python `round(q, 2)`: round to two decimal places, half to even. -/
def round2 (q : ℚ) : ℚ := (roundHalfEven (q * 100) : ℚ) / 100

/-- `HouseClimaCoordinator._round_to_step`:
`if step <= 0: return v; return round(round(v / step) * step, 2)`. -/
def roundToStep (v step : ℚ) : ℚ :=
  if step ≤ 0 then v
  else round2 ((roundHalfEven (v / step) : ℚ) * step)

/-- One entry of the `areas` option list.  Fields hold the value the Python
code obtains via `area.get(KEY, default)`; a key that may be absent with no
numeric default is an `Option`. -/
structure Area where
  id : Option String := none
  tempSensor : String := ""
  actuatorType : Option String := none
  actuatorEntity : Option String := none
  supportsHeat : Bool := false
  supportsCool : Bool := false
  minSetpoint : ℚ := 16
  maxSetpoint : ℚ := 30
  step : ℚ := 1/2
  bias : ℚ := 0
  gain : ℚ := 1
  included : Bool := true
deriving DecidableEq, Repr

/-- One entry of the `zones` option list. -/
structure Zone where
  id : Option String := none
  areaIds : List String := []
deriving DecidableEq, Repr

/-- `AreaRuntime`: per-area volatile state. -/
structure AreaRuntimeEntry where
  included : Bool := true
  lastChange : Option ℚ := none
deriving DecidableEq, Repr

/-- `self.runtime`: dict from area id to `AreaRuntime`, modelled as an
association list (first binding wins, as in a dict with unique keys). -/
abbrev Runtime := List (String × AreaRuntimeEntry)

def rtLookup (rt : Runtime) (aid : String) : Option AreaRuntimeEntry :=
  List.lookup aid rt

/-- `dict.setdefault(aid, AreaRuntime())`. -/
def rtSetdefault (rt : Runtime) (aid : String) : Runtime :=
  match rtLookup rt aid with
  | some _ => rt
  | none => rt ++ [(aid, {})]

/-- Replace the first binding of `aid` by `e`. -/
def rtReplace : Runtime → String → AreaRuntimeEntry → Runtime
  | [], _, _ => []
  | (k, v) :: rest, aid, e =>
      if k = aid then (k, e) :: rest else (k, v) :: rtReplace rest aid e

/-- `self.runtime[aid].last_change = t` (the callers guarantee the key is
present; an absent key is modelled as inserting a fresh entry). -/
def rtSetLastChange (rt : Runtime) (aid : String) (t : ℚ) : Runtime :=
  match rtLookup rt aid with
  | some e => rtReplace rt aid { e with lastChange := some t }
  | none => rt ++ [(aid, { lastChange := some t })]

/-- Result of `ClimateActuator.async_read`: `hvacMode = none` corresponds to
a missing entity (all fields default). -/
structure ClimateReadState where
  setpoint : Option ℚ := none
  hvacModes : List String := []
  hvacMode : Option String := none
deriving DecidableEq, Repr

/-- The Home-Assistant state machine, seen through the read helpers:
`_read_float_state`, `ClimateActuator.async_read`, `NumberActuator.async_read`
(`setpoint`), `SwitchActuator.async_read` (`is_on`, `none` when the entity
is missing). -/
structure Env where
  sensor : String → Option ℚ
  climateRead : String → ClimateReadState
  numberRead : String → Option ℚ
  switchRead : String → Option Bool

/-- A fire-and-forget actuator service call issued by the coordinator. -/
inductive Action where
  | setTemperature (entity : String) (value : ℚ)
  | setValue (entity : String) (value : ℚ)
  | setHvacMode (entity : String) (mode : String)
  | turnOn (entity : String)
  | turnOff (entity : String)
deriving DecidableEq, Repr

/-- Setpoint-carrying writes (climate `set_temperature`, number `set_value`). -/
def isSetpointWrite : Action → Bool
  | .setTemperature _ _ => true
  | .setValue _ _ => true
  | _ => false

/-- Coordinator state plus the configuration snapshot the loop reads at the
start of a pass (`self.hvac_mode`, `self.house_target` and the option
getters of `HouseClimaCoordinator`). -/
structure Config where
  hvacMode : String := "off"
  houseTarget : ℚ := 21
  areas : List Area := []
  zones : List Zone := []
  deadband : ℚ := 1/2
  minChangeSeconds : ℤ := 60
  setpointLimit : ℚ := 3
  unwindThreshold : ℚ := 2
  activeZoneOffset : ℚ := 3
  activeZoneId : Option String := none

/-- `HouseClimaCoordinator._is_area_included`. -/
def isAreaIncluded (rt : Runtime) (a : Area) : Bool :=
  match a.id with
  | none => a.included
  | some aid =>
      if aid = "" then a.included
      else
        match rtLookup rt aid with
        | some e => e.included
        | none => a.included

/-- `HouseClimaCoordinator._area_supports_mode`. -/
def areaSupportsMode (mode : String) (a : Area) : Bool :=
  if mode = "heat" then a.supportsHeat
  else if mode = "cool" then a.supportsCool
  else false

/-- `HouseClimaCoordinator._rate_limited` (the `setdefault` side effect is
applied separately by the caller; a missing or never-written entry is not
rate limited). -/
def rateLimited (rt : Runtime) (aid : String) (minChangeSeconds : ℤ) (now : ℚ) : Bool :=
  match rtLookup rt aid with
  | none => false
  | some e =>
      match e.lastChange with
      | none => false
      | some t => decide (now - t < (minChangeSeconds : ℚ))

/-- `HouseClimaCoordinator._area_in_active_zone`. -/
def areaInActiveZone (cfg : Config) (areaId : String) : Bool :=
  match cfg.activeZoneId with
  | none => false
  | some zid =>
      if zid = "" then false
      else if zid = SUSPEND_ZONE_ID then false
      else
        match cfg.zones.find? (fun z => z.id = some zid) with
        | some z => z.areaIds.contains areaId
        | none => false

/-- `HouseClimaCoordinator._desired_room_for_area`. -/
def desiredRoomForArea (cfg : Config) (areaId : String) : ℚ :=
  if areaInActiveZone cfg areaId then cfg.houseTarget + cfg.activeZoneOffset
  else cfg.houseTarget

/-- `HouseClimaCoordinator._compute_banded_setpoint_target`. -/
def computeBandedSetpointTarget (mode : String) (roomTemp desiredRoom centerSp limit unwind : ℚ) : ℚ :=
  let e := roomTemp - desiredRoom
  let a := |e|
  let frac : ℚ := if unwind ≤ 0 then 1 else if a ≥ unwind then 1 else a / unwind
  let direction : ℚ :=
    if mode = "cool" then (if 0 < e then -1 else 1)
    else (if e < 0 then 1 else -1)
  centerSp + direction * limit * frac

/-- The band-clamped (not yet step-rounded) target of the banded-nudge
handlers: `_clamp(_compute_banded_setpoint_target(...), band_lo, band_hi)`
with `band_lo`/`band_hi` the band edges clamped to the device bounds
(`coordinator.py` lines 636-640). -/
def bandedClampedTarget (mode : String) (area : Area) (roomTemp desiredRoom limit unwind : ℚ) : ℚ :=
  let center := desiredRoom + area.bias
  let bandLo := clamp (center - limit) area.minSetpoint area.maxSetpoint
  let bandHi := clamp (center + limit) area.minSetpoint area.maxSetpoint
  clamp (computeBandedSetpointTarget mode roomTemp desiredRoom center limit unwind) bandLo bandHi

/-- The final `target_sp` of the banded-nudge handlers: the band-clamped
target rounded to the area's step (`coordinator.py` line 641). -/
def bandedTargetSp (mode : String) (area : Area) (roomTemp desiredRoom limit unwind : ℚ) : ℚ :=
  roundToStep (bandedClampedTarget mode area roomTemp desiredRoom limit unwind) area.step

/-- `HouseClimaCoordinator._handle_climate_banded_nudge`, with the actuator
read and write abstracted: `readSetpoint` is `read.setpoint` and the result
is the returned changed flag together with the value passed to
`act.async_set_temperature` (or `none` when no write is issued). -/
def climateBandedNudge (mode : String) (area : Area)
    (roomTemp desiredRoom deadband limit unwind : ℚ)
    (readSetpoint : Option ℚ) : Bool × Option ℚ :=
  let step := area.step
  let lo := area.minSetpoint
  let hi := area.maxSetpoint
  let center := desiredRoom + area.bias
  let gain := area.gain
  match readSetpoint with
  | none =>
      let centerSp := roundToStep (clamp center lo hi) step
      (true, some centerSp)
  | some cur =>
      let targetSp := bandedTargetSp mode area roomTemp desiredRoom limit unwind
      if |cur - targetSp| < 1/1000 then (false, none)
      else
        let delta := step * gain
        let newSp0 := if cur < targetSp then min (cur + delta) targetSp else max (cur - delta) targetSp
        let newSp := roundToStep (clamp newSp0 lo hi) step
        let centerSp := roundToStep (clamp center lo hi) step
        if |roomTemp - desiredRoom| ≤ deadband ∧ |newSp - centerSp| < 1/1000 then (false, none)
        else if |newSp - cur| < 1/1000 then (false, none)
        else (true, some newSp)

/-- `HouseClimaCoordinator._handle_number_banded_nudge`, with the actuator
read and write abstracted exactly as in `climateBandedNudge`; the source
bodies are identical apart from the actuator service being called. -/
def numberBandedNudge (mode : String) (area : Area)
    (roomTemp desiredRoom deadband limit unwind : ℚ)
    (readSetpoint : Option ℚ) : Bool × Option ℚ :=
  let step := area.step
  let lo := area.minSetpoint
  let hi := area.maxSetpoint
  let center := desiredRoom + area.bias
  let gain := area.gain
  match readSetpoint with
  | none =>
      let centerSp := roundToStep (clamp center lo hi) step
      (true, some centerSp)
  | some cur =>
      let targetSp := bandedTargetSp mode area roomTemp desiredRoom limit unwind
      if |cur - targetSp| < 1/1000 then (false, none)
      else
        let delta := step * gain
        let newSp0 := if cur < targetSp then min (cur + delta) targetSp else max (cur - delta) targetSp
        let newSp := roundToStep (clamp newSp0 lo hi) step
        let centerSp := roundToStep (clamp center lo hi) step
        if |roomTemp - desiredRoom| ≤ deadband ∧ |newSp - centerSp| < 1/1000 then (false, none)
        else if |newSp - cur| < 1/1000 then (false, none)
        else (true, some newSp)

/-- `HouseClimaCoordinator._handle_switch`: the hysteresis actions issued
for one switch area, given `read.is_on`. -/
def handleSwitch (mode : String) (entity : String)
    (roomTemp desired deadband : ℚ) (isOn : Option Bool) : List Action :=
  match isOn with
  | none => []
  | some b =>
      if mode = "heat" then
        if roomTemp < desired - deadband ∧ b = false then [Action.turnOn entity]
        else if desired + deadband < roomTemp ∧ b = true then [Action.turnOff entity]
        else []
      else
        if desired + deadband < roomTemp ∧ b = false then [Action.turnOn entity]
        else if roomTemp < desired - deadband ∧ b = true then [Action.turnOff entity]
        else []

/-- `HouseClimaCoordinator._select_supported_hvac_mode`. -/
def selectSupportedHvacMode (hvacModes : List String) (desired : String) : Option String :=
  if hvacModes.contains desired then some desired
  else if (desired = "heat" ∨ desired = "cool") ∧ hvacModes.contains "heat_cool" then some "heat_cool"
  else none

/-- `HouseClimaCoordinator._force_climate_mode`. -/
def forceClimateMode (env : Env) (mode : String) (entity : String) : List Action :=
  let read := env.climateRead entity
  match selectSupportedHvacMode read.hvacModes mode with
  | none => []
  | some target =>
      if read.hvacMode = some target then [] else [Action.setHvacMode entity target]

/-- The per-area trigger condition inspected by
`_async_auto_suspend_if_any_actuator_on`: a truthy actuator entity whose
switch reads on, or whose climate read reports a truthy non-"off" mode. -/
def actuatorTriggersSuspend (env : Env) (a : Area) : Bool :=
  match a.actuatorEntity with
  | none => false
  | some ent =>
      if ent = "" then false
      else if a.actuatorType = some ACTUATOR_SWITCH then env.switchRead ent == some true
      else if a.actuatorType = some ACTUATOR_CLIMATE then
        match (env.climateRead ent).hvacMode with
        | none => false
        | some m => !(m == "") && !(m == "off")
      else false

/-- The area scan of `_async_auto_suspend_if_any_actuator_on`: `true` iff
the loop reaches `async_set_active_zone(SUSPEND_ZONE_ID)` (it returns at
the first triggering area). -/
def autoSuspendScan (env : Env) (rt : Runtime) : List Area → Bool
  | [] => false
  | a :: rest =>
      if truthyOptStr a.id && isAreaIncluded rt a && actuatorTriggersSuspend env a then true
      else autoSuspendScan env rt rest

/-- Actions and updated runtime produced for one area. -/
structure AreaStep where
  actions : List Action
  runtime : Runtime

/-- The sensor readings averaged at the start of `_async_control_loop`
(lines 499-508): included areas, filtered by mode support unless the mode
is "off". -/
def loopTemps (cfg : Config) (rt : Runtime) (env : Env) : List ℚ :=
  (cfg.areas.filter
      (fun a => isAreaIncluded rt a && (cfg.hvacMode == "off" || areaSupportsMode cfg.hvacMode a))).filterMap
    (fun a => env.sensor a.tempSensor)

/-- `sum(temps)/len(temps) if temps else None`. -/
def meanOpt (xs : List ℚ) : Option ℚ :=
  if xs = [] then none else some (xs.sum / (xs.length : ℚ))

/-- The per-area body of the main loop of `_async_control_loop`
(lines 526-560).  `deadband`, `minChangeSeconds`, `limit` and `unwind` are
the pass-local values computed on lines 521-524.  An area whose actuator
entity key is absent where the source would raise `KeyError` is modelled
as skipped. -/
def processArea (cfg : Config) (env : Env) (now : ℚ)
    (deadband : ℚ) (minChangeSeconds : ℤ) (limit unwind : ℚ)
    (rt : Runtime) (area : Area) : AreaStep :=
  match area.id with
  | none => ⟨[], rt⟩
  | some aid =>
      if aid = "" then ⟨[], rt⟩
      else if !(isAreaIncluded rt area) then ⟨[], rt⟩
      else if !(areaSupportsMode cfg.hvacMode area) then ⟨[], rt⟩
      else
        let modeActs :=
          match area.actuatorEntity with
          | some ent =>
              if area.actuatorType = some ACTUATOR_CLIMATE ∧ ent ≠ "" then
                forceClimateMode env cfg.hvacMode ent
              else []
          | none => []
        match env.sensor area.tempSensor with
        | none => ⟨modeActs, rt⟩
        | some roomTemp =>
            let desired := desiredRoomForArea cfg aid
            if area.actuatorType = some ACTUATOR_SWITCH then
              match area.actuatorEntity with
              | none => ⟨modeActs, rt⟩
              | some ent =>
                  ⟨modeActs ++ handleSwitch cfg.hvacMode ent roomTemp desired deadband (env.switchRead ent), rt⟩
            else
              let rt1 := rtSetdefault rt aid
              if rateLimited rt1 aid minChangeSeconds now then ⟨modeActs, rt1⟩
              else if area.actuatorType = some ACTUATOR_CLIMATE then
                match area.actuatorEntity with
                | none => ⟨modeActs, rt1⟩
                | some ent =>
                    let read := env.climateRead ent
                    let res := climateBandedNudge cfg.hvacMode area roomTemp desired deadband limit unwind read.setpoint
                    let acts := match res.2 with
                      | some v => [Action.setTemperature ent v]
                      | none => []
                    if res.1 then ⟨modeActs ++ acts, rtSetLastChange rt1 aid now⟩
                    else ⟨modeActs ++ acts, rt1⟩
              else if area.actuatorType = some ACTUATOR_NUMBER then
                match area.actuatorEntity with
                | none => ⟨modeActs, rt1⟩
                | some ent =>
                    let res := numberBandedNudge cfg.hvacMode area roomTemp desired deadband limit unwind (env.numberRead ent)
                    let acts := match res.2 with
                      | some v => [Action.setValue ent v]
                      | none => []
                    if res.1 then ⟨modeActs ++ acts, rtSetLastChange rt1 aid now⟩
                    else ⟨modeActs ++ acts, rt1⟩
              else ⟨modeActs, rt1⟩

/-- The main loop folded over the configured areas, threading the runtime
store and concatenating the issued actions. -/
def controlLoopAreas (cfg : Config) (env : Env) (now : ℚ)
    (deadband : ℚ) (minChangeSeconds : ℤ) (limit unwind : ℚ) :
    Runtime → List Area → List Action × Runtime
  | rt, [] => ([], rt)
  | rt, a :: rest =>
      let s := processArea cfg env now deadband minChangeSeconds limit unwind rt a
      let acc := controlLoopAreas cfg env now deadband minChangeSeconds limit unwind s.runtime rest
      (s.actions ++ acc.1, acc.2)

/-- Result of one pass of `_async_control_loop`. -/
structure LoopResult where
  actions : List Action
  runtime : Runtime
  currentTemperature : Option ℚ
  activeZoneId : Option String

/-- One pass of `HouseClimaCoordinator._async_control_loop` (the body
guarded by the re-entrancy flag).  The pass recomputes the aggregate
temperature, then either runs the auto-suspend watchdog (mode "off"),
returns untouched (Suspended), or processes every area. -/
def controlLoop (cfg : Config) (rt : Runtime) (env : Env) (now : ℚ) : LoopResult :=
  let curTemp := meanOpt (loopTemps cfg rt env)
  if cfg.hvacMode = "off" then
    let suspendNow :=
      cfg.activeZoneId ≠ some SUSPEND_ZONE_ID ∧ autoSuspendScan env rt cfg.areas = true
    { actions := [], runtime := rt, currentTemperature := curTemp,
      activeZoneId := if suspendNow then some SUSPEND_ZONE_ID else cfg.activeZoneId }
  else if cfg.activeZoneId = some SUSPEND_ZONE_ID then
    { actions := [], runtime := rt, currentTemperature := curTemp,
      activeZoneId := cfg.activeZoneId }
  else
    let limit := max 0 cfg.setpointLimit
    let unwind := max 0 cfg.unwindThreshold
    let res := controlLoopAreas cfg env now cfg.deadband cfg.minChangeSeconds limit unwind rt cfg.areas
    { actions := res.1, runtime := res.2, currentTemperature := curTemp,
      activeZoneId := cfg.activeZoneId }

/-- The per-area body of `_async_apply_manual_target_center_sync`
(lines 572-614): write the rounded center straight to every setpoint
actuator (when forced, unknown, or off target), stamping `last_change`
with the pass time `now`. -/
def immediateApplyArea (cfg : Config) (env : Env) (now : ℚ)
    (deadband : ℚ) (force : Bool) (rt : Runtime) (area : Area) : AreaStep :=
  match area.id with
  | none => ⟨[], rt⟩
  | some aid =>
      if aid = "" then ⟨[], rt⟩
      else if !(isAreaIncluded rt area) then ⟨[], rt⟩
      else if !(areaSupportsMode cfg.hvacMode area) then ⟨[], rt⟩
      else
        match area.actuatorEntity with
        | none => ⟨[], rt⟩
        | some ent =>
            if ent = "" then ⟨[], rt⟩
            else
              match env.sensor area.tempSensor with
              | none => ⟨[], rt⟩
              | some roomTemp =>
                  let desired := desiredRoomForArea cfg aid
                  if area.actuatorType = some ACTUATOR_SWITCH then
                    ⟨handleSwitch cfg.hvacMode ent roomTemp desired deadband (env.switchRead ent), rt⟩
                  else
                    let targetSp :=
                      roundToStep (clamp (desired + area.bias) area.minSetpoint area.maxSetpoint) area.step
                    if area.actuatorType = some ACTUATOR_CLIMATE then
                      let modeActs := forceClimateMode env cfg.hvacMode ent
                      match (env.climateRead ent).setpoint with
                      | none =>
                          ⟨modeActs ++ [Action.setTemperature ent targetSp], rtSetLastChange rt aid now⟩
                      | some sp =>
                          if force ∨ 1/1000 ≤ |sp - targetSp| then
                            ⟨modeActs ++ [Action.setTemperature ent targetSp], rtSetLastChange rt aid now⟩
                          else ⟨modeActs, rt⟩
                    else if area.actuatorType = some ACTUATOR_NUMBER then
                      match env.numberRead ent with
                      | none =>
                          ⟨[Action.setValue ent targetSp], rtSetLastChange rt aid now⟩
                      | some sp =>
                          if force ∨ 1/1000 ≤ |sp - targetSp| then
                            ⟨[Action.setValue ent targetSp], rtSetLastChange rt aid now⟩
                          else ⟨[], rt⟩
                    else ⟨[], rt⟩

/-! ### Numeric lemmas about the rounding primitives -/

theorem roundHalfEven_sub_abs (q : ℚ) : |(roundHalfEven q : ℚ) - q| ≤ 1/2 := by
  have h0 : (⌊q⌋ : ℚ) ≤ q := Int.floor_le q
  have h1 : q < (⌊q⌋ : ℚ) + 1 := Int.lt_floor_add_one q
  unfold roundHalfEven
  split_ifs with hlt hgt heven <;> rw [abs_le] <;> constructor <;> push_cast <;> linarith

theorem roundHalfEven_mono {q r : ℚ} (h : q ≤ r) : roundHalfEven q ≤ roundHalfEven r := by
  by_contra hc
  push_neg at hc
  have hstep : roundHalfEven r + 1 ≤ roundHalfEven q := hc
  have hstepQ : (roundHalfEven r : ℚ) + 1 ≤ (roundHalfEven q : ℚ) := by exact_mod_cast hstep
  have hq := roundHalfEven_sub_abs q
  have hr := roundHalfEven_sub_abs r
  rw [abs_le] at hq hr
  have hq1 : (roundHalfEven q : ℚ) = q + 1/2 := by linarith
  have hr1 : (roundHalfEven r : ℚ) = r - 1/2 := by linarith
  have hqr : q = r := by linarith
  subst hqr
  linarith

theorem round2_sub_abs (q : ℚ) : |round2 q - q| ≤ 1/200 := by
  have h := roundHalfEven_sub_abs (q * 100)
  unfold round2
  rw [abs_le] at h ⊢
  constructor <;> [nlinarith; nlinarith]

theorem round2_mono {q r : ℚ} (h : q ≤ r) : round2 q ≤ round2 r := by
  unfold round2
  have := roundHalfEven_mono (mul_le_mul_of_nonneg_right h (by norm_num : (0:ℚ) ≤ 100))
  have hc : (roundHalfEven (q * 100) : ℚ) ≤ (roundHalfEven (r * 100) : ℚ) := by exact_mod_cast this
  linarith

theorem roundToStep_sub_abs {s : ℚ} (hs : 0 < s) (v : ℚ) :
    |roundToStep v s - v| ≤ s/2 + 1/200 := by
  unfold roundToStep
  rw [if_neg (not_le.mpr hs)]
  have h1 := roundHalfEven_sub_abs (v / s)
  have h2 := round2_sub_abs ((roundHalfEven (v / s) : ℚ) * s)
  rw [abs_le] at h1 h2 ⊢
  have hv : (v / s) * s = v := div_mul_cancel₀ v (ne_of_gt hs)
  constructor
  · nlinarith [h1.1, h2.1]
  · nlinarith [h1.2, h2.2]

theorem roundToStep_mono {s : ℚ} (hs : 0 < s) {x y : ℚ} (h : x ≤ y) :
    roundToStep x s ≤ roundToStep y s := by
  unfold roundToStep
  rw [if_neg (not_le.mpr hs), if_neg (not_le.mpr hs)]
  apply round2_mono
  have hdiv : x / s ≤ y / s := by gcongr
  have hm := roundHalfEven_mono hdiv
  have hmQ : (roundHalfEven (x / s) : ℚ) ≤ (roundHalfEven (y / s) : ℚ) := by exact_mod_cast hm
  exact mul_le_mul_of_nonneg_right hmQ hs.le

/-! ### Clamp lemmas -/

theorem clamp_le {lo hi : ℚ} (h : lo ≤ hi) (v : ℚ) : clamp v lo hi ≤ hi := by
  unfold clamp
  exact max_le h (min_le_left _ _)

theorem le_clamp (v lo hi : ℚ) : lo ≤ clamp v lo hi := le_max_left _ _

theorem clamp_eq_self {v lo hi : ℚ} (h1 : lo ≤ v) (h2 : v ≤ hi) : clamp v lo hi = v := by
  unfold clamp
  rw [min_eq_right h2, max_eq_right h1]

theorem clamp_mono {x y : ℚ} (h : x ≤ y) (lo hi : ℚ) : clamp x lo hi ≤ clamp y lo hi := by
  unfold clamp
  exact max_le_max le_rfl (min_le_min le_rfl h)

theorem clamp_sub_abs {c lo hi : ℚ} (h1 : lo ≤ c) (h2 : c ≤ hi) (x : ℚ) :
    |clamp x lo hi - c| ≤ |x - c| := by
  unfold clamp
  rcases le_total x lo with hx | hx
  · have hxhi : x ≤ hi := le_trans hx (le_trans h1 h2)
    rw [min_eq_right hxhi, max_eq_left hx,
      abs_of_nonpos (by linarith), abs_of_nonpos (by linarith)]
    linarith
  · rcases le_total x hi with hx2 | hx2
    · rw [min_eq_right hx2, max_eq_right hx]
    · rw [min_eq_left hx2, max_eq_right (le_trans h1 h2),
        abs_of_nonneg (by linarith), abs_of_nonneg (by linarith)]
      linarith

/-! ### Helper lemmas about the loop structure -/

theorem controlLoop_run_actions (cfg : Config) (rt : Runtime) (env : Env) (now : ℚ)
    (h1 : ¬ cfg.hvacMode = "off") (h2 : ¬ cfg.activeZoneId = some SUSPEND_ZONE_ID) :
    (controlLoop cfg rt env now).actions =
      (controlLoopAreas cfg env now cfg.deadband cfg.minChangeSeconds
        (max 0 cfg.setpointLimit) (max 0 cfg.unwindThreshold) rt cfg.areas).1 := by
  unfold controlLoop
  rw [if_neg h1, if_neg h2]

/-! ### Shared concrete scenario (spec §8, Scenarios A and B) -/

/-- The area of spec Scenario A/B: `bias=0, gain=1, step=0.5, min=16, max=30`,
a heat-supporting climate actuator. -/
def areaScen : Area where
  id := some "a1"
  tempSensor := "t1"
  actuatorType := some ACTUATOR_CLIMATE
  actuatorEntity := some "c1"
  supportsHeat := true
  minSetpoint := 16
  maxSetpoint := 30
  step := 1/2
  bias := 0
  gain := 1

/-- Scenario configuration: Heat mode, `house_target=21`, `limit=3`,
`unwind=2`, no active boost zone. -/
def cfgScen : Config where
  hvacMode := "heat"
  houseTarget := 21
  areas := [areaScen]
  zones := []
  deadband := 1/2
  minChangeSeconds := 60
  setpointLimit := 3
  unwindThreshold := 2
  activeZoneId := none

/-- Scenario environment: room temperature 19, current setpoint 21,
actuator already in heat mode. -/
def envScen : Env where
  sensor := fun s => if s = "t1" then some 19 else none
  climateRead := fun e =>
    if e = "c1" then { setpoint := some 21, hvacModes := ["heat", "off"], hvacMode := some "heat" }
    else {}
  numberRead := fun _ => none
  switchRead := fun _ => none

/-- Scenario A area with a step of 0.9 instead of 0.5 (all other
parameters unchanged). -/
def areaScen09 : Area := { areaScen with step := 9/10 }

/-! ### C2 -/

/-- C2: in Heat mode with `house_target=21`, no boost zone, and the Scenario
A area (`bias=0, gain=1, step=0.5, limit=3, unwind=2, min=16, max=30`,
`room_temp=19`), the banded computation yields a raw target `21+1*3*1 = 24`
(`frac=1`, `direction=+1`), the clamped step-rounded target is `24.0`, and
with current setpoint 21 one nudge pass of the periodic loop writes exactly
`21.5 = min(21+0.5, 24)`. -/
theorem claim2_scenario_a_b :
    desiredRoomForArea cfgScen "a1" = 21 ∧
    computeBandedSetpointTarget "heat" 19 21 21 3 2 = 21 + 1 * 3 * 1 ∧
    bandedTargetSp "heat" areaScen 19 21 3 2 = 24 ∧
    climateBandedNudge "heat" areaScen 19 21 (1/2) 3 2 (some 21) = (true, some (43/2)) ∧
    (controlLoop cfgScen [("a1", {})] envScen 0).actions = [Action.setTemperature "c1" (43/2)] := by
  refine ⟨by norm_num [desiredRoomForArea, areaInActiveZone, cfgScen], ?_, ?_, ?_, ?_⟩
  · norm_num [computeBandedSetpointTarget, abs_lt, abs_le, le_abs, lt_abs]
  · norm_num [bandedTargetSp, bandedClampedTarget, computeBandedSetpointTarget,
      roundToStep, round2, roundHalfEven, clamp, areaScen, abs_lt, abs_le, le_abs, lt_abs]
  · norm_num [climateBandedNudge, bandedTargetSp, bandedClampedTarget, computeBandedSetpointTarget,
      roundToStep, round2, roundHalfEven, clamp, areaScen, abs_lt, abs_le, le_abs, lt_abs]
  · rw [controlLoop_run_actions _ _ _ _ (by decide) (by decide)]
    norm_num [controlLoopAreas, processArea, cfgScen, envScen, areaScen,
      climateBandedNudge, bandedTargetSp, bandedClampedTarget, computeBandedSetpointTarget,
      roundToStep, round2, roundHalfEven, clamp, desiredRoomForArea, areaInActiveZone,
      isAreaIncluded, areaSupportsMode, rateLimited, rtSetdefault, rtLookup, rtSetLastChange, rtReplace,
      forceClimateMode, selectSupportedHvacMode, ACTUATOR_CLIMATE, ACTUATOR_NUMBER, ACTUATOR_SWITCH,
      SUSPEND_ZONE_ID, truthyOptStr, abs_lt, abs_le, le_abs, lt_abs]
    simp

/-! ### C8 -/

/-- C8: the Thermostat-kind and NumericSetpoint-kind banded-nudge handlers
implement the same decision function: on equal area parameters, sensor and
read inputs they return the same changed flag and the same written value
(or both suppress the write); only the actuator service receiving the
value differs. -/
theorem claim8_handlers_equal (mode : String) (area : Area)
    (roomTemp desiredRoom deadband limit unwind : ℚ) (readSetpoint : Option ℚ) :
    climateBandedNudge mode area roomTemp desiredRoom deadband limit unwind readSetpoint =
      numberBandedNudge mode area roomTemp desiredRoom deadband limit unwind readSetpoint := rfl

/-! ### C10 -/

/-- C10: rounding to step returns the value unchanged for `step ≤ 0`; for
`step > 0` it is `round(round(v/step)*step, 2)` with round-half-to-even
tie-breaking followed by rounding to two decimal places, and for a step
that is not two-decimal-exact the result need not be an exact multiple of
the step. -/
theorem claim10_round_to_step :
    (∀ v s : ℚ, s ≤ 0 → roundToStep v s = v) ∧
    (∀ v s : ℚ, 0 < s → roundToStep v s = round2 ((roundHalfEven (v / s) : ℚ) * s)) ∧
    (∃ v s : ℚ, 0 < s ∧ ∀ n : ℤ, roundToStep v s ≠ (n : ℚ) * s) := by
  refine ⟨fun v s hs => by rw [roundToStep, if_pos hs],
    fun v s hs => by rw [roundToStep, if_neg (not_le.mpr hs)],
    ⟨169/8, 1/8, by norm_num, fun n hn => ?_⟩⟩
  rw [show roundToStep (169/8) (1/8) = 528/25 by
      norm_num [roundToStep, round2, roundHalfEven]] at hn
  have h25 : (25 : ℚ) * 8 * ((n : ℚ) * (1/8)) = 25 * 8 * (528/25) := by rw [hn]
  have hn2 : (200 : ℚ) * (n : ℚ) * (1/8) = 4224 := by push_cast at h25 ⊢; linarith
  have hn3 : (25 * n : ℤ) = 4224 := by
    have : ((25 * n : ℤ) : ℚ) = 4224 := by push_cast; linarith
    exact_mod_cast this
  omega

/-- C10 witness: concrete instantiations of the two guarded conjuncts. -/
theorem claim10_witness :
    roundToStep 5 (-1) = 5 ∧
    roundToStep 24 (9/10) = round2 ((roundHalfEven (24 / (9/10)) : ℚ) * (9/10)) := by
  constructor
  · exact claim10_round_to_step.1 5 (-1) (by norm_num)
  · exact claim10_round_to_step.2.1 24 (9/10) (by norm_num)

/-! ### C1 -/

/-- C1 counterexample: for the Scenario A parameters with `step = 0.9`
(Heat, `desired = 21`, `bias = 0`, `limit = 3`, `unwind = 2`,
`room_temp = 19`, bounds `[16, 30]`), the handler's computed target
setpoint is `24.3`, outside the claimed interval
`[max(center-limit, min), min(center+limit, max)] = [18, 24]`; with a
known current setpoint of 24 the handler even writes that value. -/
theorem claim1_counterexample :
    bandedTargetSp "heat" areaScen09 19 21 3 2 = 243/10 ∧
    climateBandedNudge "heat" areaScen09 19 21 (1/2) 3 2 (some 24) = (true, some (243/10)) ∧
    ¬ (max (21 + areaScen09.bias - 3) areaScen09.minSetpoint ≤ 243/10 ∧
       (243/10 : ℚ) ≤ min (21 + areaScen09.bias + 3) areaScen09.maxSetpoint) := by
  refine ⟨?_, ?_, ?_⟩
  · norm_num [bandedTargetSp, bandedClampedTarget, computeBandedSetpointTarget,
      roundToStep, round2, roundHalfEven, clamp, areaScen09, areaScen, abs_lt, abs_le, le_abs, lt_abs]
  · norm_num [climateBandedNudge, bandedTargetSp, bandedClampedTarget, computeBandedSetpointTarget,
      roundToStep, round2, roundHalfEven, clamp, areaScen09, areaScen, abs_lt, abs_le, le_abs, lt_abs]
  · norm_num [areaScen09, areaScen]

/-- C1 (amended): before the final rounding to the area's step, the
band-clamped target setpoint of the banded-nudge handlers lies in
`[max(center-limit, min_setpoint), min(center+limit, max_setpoint)]`
whenever that interval is nonempty; the subsequent step rounding can move
the result outside the interval by at most half a step plus `0.005`. -/
theorem claim1_target_in_band (mode : String) (area : Area)
    (roomTemp desiredRoom limit unwind : ℚ)
    (hne : max (desiredRoom + area.bias - limit) area.minSetpoint ≤
      min (desiredRoom + area.bias + limit) area.maxSetpoint) :
    (max (desiredRoom + area.bias - limit) area.minSetpoint ≤
        bandedClampedTarget mode area roomTemp desiredRoom limit unwind ∧
      bandedClampedTarget mode area roomTemp desiredRoom limit unwind ≤
        min (desiredRoom + area.bias + limit) area.maxSetpoint) ∧
    (0 < area.step →
      |bandedTargetSp mode area roomTemp desiredRoom limit unwind -
          bandedClampedTarget mode area roomTemp desiredRoom limit unwind| ≤
        area.step / 2 + 1/200) := by
  have hc1 : desiredRoom + area.bias - limit ≤ area.maxSetpoint :=
    le_trans (le_trans (le_max_left _ _) hne) (min_le_right _ _)
  have hc2 : area.minSetpoint ≤ desiredRoom + area.bias + limit :=
    le_trans (le_trans (le_max_right _ _) hne) (min_le_left _ _)
  have hc3 : area.minSetpoint ≤ area.maxSetpoint :=
    le_trans (le_trans (le_max_right _ _) hne) (min_le_right _ _)
  have hbandLo : clamp (desiredRoom + area.bias - limit) area.minSetpoint area.maxSetpoint =
      max (desiredRoom + area.bias - limit) area.minSetpoint := by
    unfold clamp
    rw [min_eq_right hc1, max_comm]
  have hbandHi : clamp (desiredRoom + area.bias + limit) area.minSetpoint area.maxSetpoint =
      min (desiredRoom + area.bias + limit) area.maxSetpoint := by
    unfold clamp
    rw [max_eq_right (le_min hc3 hc2), min_comm]
  constructor
  · simp only [bandedClampedTarget]
    rw [hbandLo, hbandHi]
    exact ⟨le_clamp _ _ _, clamp_le hne _⟩
  · intro hs
    exact roundToStep_sub_abs hs _

/-- C1 witness: the nonemptiness hypothesis holds for the Scenario A area
at `desired = 21`, `limit = 3`, and the conclusion follows by the theorem. -/
theorem claim1_witness :
    (max ((21:ℚ) + areaScen.bias - 3) areaScen.minSetpoint ≤
      min (21 + areaScen.bias + 3) areaScen.maxSetpoint) ∧
    ((max ((21:ℚ) + areaScen.bias - 3) areaScen.minSetpoint ≤
        bandedClampedTarget "heat" areaScen 19 21 3 2 ∧
      bandedClampedTarget "heat" areaScen 19 21 3 2 ≤
        min (21 + areaScen.bias + 3) areaScen.maxSetpoint) ∧
    (0 < areaScen.step →
      |bandedTargetSp "heat" areaScen 19 21 3 2 - bandedClampedTarget "heat" areaScen 19 21 3 2| ≤
        areaScen.step / 2 + 1/200)) :=
  ⟨by norm_num [areaScen], claim1_target_in_band "heat" areaScen 19 21 3 2 (by norm_num [areaScen])⟩

/-! ### C5 -/

/-- C5: whenever `active_zone_id` is the SUSPEND sentinel, a periodic
control-loop pass issues no actuator write at all, leaves the runtime store
and the zone selection unchanged, and only recomputes the aggregate
temperature. -/
theorem claim5_suspend_short_circuit (cfg : Config) (rt : Runtime) (env : Env) (now : ℚ)
    (h : cfg.activeZoneId = some SUSPEND_ZONE_ID) :
    (controlLoop cfg rt env now).actions = [] ∧
    (controlLoop cfg rt env now).runtime = rt ∧
    (controlLoop cfg rt env now).activeZoneId = some SUSPEND_ZONE_ID ∧
    (controlLoop cfg rt env now).currentTemperature = meanOpt (loopTemps cfg rt env) := by
  unfold controlLoop
  by_cases hoff : cfg.hvacMode = "off"
  · rw [if_pos hoff]
    simp [h]
  · rw [if_neg hoff, if_pos h]
    simp [h]

/-- C5 witness: a suspended heat-mode configuration whose only area is far
below target and would otherwise be nudged. -/
theorem claim5_witness :
    (controlLoop { cfgScen with activeZoneId := some SUSPEND_ZONE_ID } [("a1", {})] envScen 0).actions = [] ∧
    (controlLoop { cfgScen with activeZoneId := some SUSPEND_ZONE_ID } [("a1", {})] envScen 0).runtime = [("a1", {})] ∧
    (controlLoop { cfgScen with activeZoneId := some SUSPEND_ZONE_ID } [("a1", {})] envScen 0).activeZoneId = some SUSPEND_ZONE_ID ∧
    (controlLoop { cfgScen with activeZoneId := some SUSPEND_ZONE_ID } [("a1", {})] envScen 0).currentTemperature =
      meanOpt (loopTemps { cfgScen with activeZoneId := some SUSPEND_ZONE_ID } [("a1", {})] envScen) :=
  claim5_suspend_short_circuit _ _ _ _ rfl

/-! ### C6 -/

theorem autoSuspendScan_iff (env : Env) (rt : Runtime) (areas : List Area) :
    autoSuspendScan env rt areas = true ↔
      ∃ a ∈ areas, truthyOptStr a.id = true ∧ isAreaIncluded rt a = true ∧
        actuatorTriggersSuspend env a = true := by
  induction areas with
  | nil => simp [autoSuspendScan]
  | cons a rest ih =>
      unfold autoSuspendScan
      by_cases hcond :
          (truthyOptStr a.id && isAreaIncluded rt a && actuatorTriggersSuspend env a) = true
      · rw [if_pos hcond]
        simp only [Bool.and_eq_true] at hcond
        simp only [List.mem_cons, true_iff]
        exact ⟨a, Or.inl rfl, hcond.1.1, hcond.1.2, hcond.2⟩
      · rw [if_neg hcond, ih]
        simp only [List.mem_cons]
        constructor
        · rintro ⟨x, hx, hprop⟩
          exact ⟨x, Or.inr hx, hprop⟩
        · rintro ⟨x, hx | hx, hprop⟩
          · subst hx
            exact absurd (by simp [hprop.1, hprop.2.1, hprop.2.2]) hcond
          · exact ⟨x, hx, hprop⟩

/-- C6: with mode Off and not already suspended, a periodic pass moves
`active_zone_id` to the SUSPEND sentinel exactly when some area with a
truthy id, currently included, has an actuator that triggers suspension (a
switch reading on, or a climate actuator reporting a truthy non-"off"
mode); otherwise `active_zone_id` is left unchanged, and in either case no
actuator write is issued by the pass. -/
theorem claim6_auto_suspend (cfg : Config) (rt : Runtime) (env : Env) (now : ℚ)
    (hmode : cfg.hvacMode = "off") (hnot : ¬ cfg.activeZoneId = some SUSPEND_ZONE_ID) :
    ((controlLoop cfg rt env now).activeZoneId = some SUSPEND_ZONE_ID ↔
      ∃ a ∈ cfg.areas, truthyOptStr a.id = true ∧ isAreaIncluded rt a = true ∧
        actuatorTriggersSuspend env a = true) ∧
    ((¬ ∃ a ∈ cfg.areas, truthyOptStr a.id = true ∧ isAreaIncluded rt a = true ∧
        actuatorTriggersSuspend env a = true) →
      (controlLoop cfg rt env now).activeZoneId = cfg.activeZoneId) ∧
    (controlLoop cfg rt env now).actions = [] := by
  unfold controlLoop
  rw [if_pos hmode]
  simp only []
  constructor
  · by_cases hscan : autoSuspendScan env rt cfg.areas = true
    · rw [if_pos ⟨hnot, hscan⟩]
      simp only [true_iff]
      exact (autoSuspendScan_iff env rt cfg.areas).mp hscan
    · rw [if_neg (fun hc => hscan hc.2)]
      constructor
      · intro hc
        exact absurd hc hnot
      · intro hex
        exact absurd ((autoSuspendScan_iff env rt cfg.areas).mpr hex) hscan
  · constructor
    · intro hnex
      have hscan : ¬ autoSuspendScan env rt cfg.areas = true :=
        fun hc => hnex ((autoSuspendScan_iff env rt cfg.areas).mp hc)
      rw [if_neg (fun hc => hscan hc.2)]
    · trivial

/-- C6 witness: Off mode, no suspension yet, one included switch area whose
switch reads on. -/
theorem claim6_witness :
    ((controlLoop { cfgScen with hvacMode := "off", areas := [{ areaScen with actuatorType := some ACTUATOR_SWITCH, actuatorEntity := some "sw" }] } [("a1", {})]
        { envScen with switchRead := fun e => if e = "sw" then some true else none } 0).activeZoneId =
      some SUSPEND_ZONE_ID ↔
      ∃ a ∈ [{ areaScen with actuatorType := some ACTUATOR_SWITCH, actuatorEntity := some "sw" }],
        truthyOptStr a.id = true ∧ isAreaIncluded [("a1", {})] a = true ∧
        actuatorTriggersSuspend { envScen with switchRead := fun e => if e = "sw" then some true else none } a = true) ∧
    ((¬ ∃ a ∈ [{ areaScen with actuatorType := some ACTUATOR_SWITCH, actuatorEntity := some "sw" }],
        truthyOptStr a.id = true ∧ isAreaIncluded [("a1", {})] a = true ∧
        actuatorTriggersSuspend { envScen with switchRead := fun e => if e = "sw" then some true else none } a = true) →
      (controlLoop { cfgScen with hvacMode := "off", areas := [{ areaScen with actuatorType := some ACTUATOR_SWITCH, actuatorEntity := some "sw" }] } [("a1", {})]
        { envScen with switchRead := fun e => if e = "sw" then some true else none } 0).activeZoneId = none) ∧
    (controlLoop { cfgScen with hvacMode := "off", areas := [{ areaScen with actuatorType := some ACTUATOR_SWITCH, actuatorEntity := some "sw" }] } [("a1", {})]
        { envScen with switchRead := fun e => if e = "sw" then some true else none } 0).actions = [] :=
  claim6_auto_suspend _ _ _ _ rfl (by decide)

/-! ### C7 -/

theorem areaInActiveZone_iff (cfg : Config) (aid : String)
    (hz : ∀ z1, z1 ∈ cfg.zones → ∀ z2, z2 ∈ cfg.zones → z1.id = z2.id → z1 = z2) :
    areaInActiveZone cfg aid = true ↔
      cfg.activeZoneId ≠ none ∧ cfg.activeZoneId ≠ some "" ∧
        cfg.activeZoneId ≠ some SUSPEND_ZONE_ID ∧
        ∃ z ∈ cfg.zones, z.id = cfg.activeZoneId ∧ aid ∈ z.areaIds := by
  unfold areaInActiveZone
  rcases hA : cfg.activeZoneId with _ | zid
  · simp
  · dsimp only
    by_cases h1 : zid = ""
    · subst h1
      simp
    · rw [if_neg h1]
      by_cases h2 : zid = SUSPEND_ZONE_ID
      · rw [if_pos h2]
        simp [h2]
      · rw [if_neg h2]
        cases hF : cfg.zones.find? (fun z => z.id = some zid) with
        | none =>
            have hnone : ∀ z ∈ cfg.zones, ¬ z.id = some zid := by
              intro z hzmem hzid
              have := List.find?_eq_none.mp hF z hzmem
              simp [hzid] at this
            simp only [Bool.false_eq_true, false_iff, not_and]
            intro _ _ _
            rintro ⟨z, hzmem, hzid, -⟩
            exact hnone z hzmem hzid
        | some z =>
            have hzmem : z ∈ cfg.zones := List.mem_of_find?_eq_some hF
            have hzid : z.id = some zid := by
              have := List.find?_some hF
              simpa using this
            rw [show (z.areaIds.contains aid = true) ↔ aid ∈ z.areaIds from by simp]
            constructor
            · intro hmem
              exact ⟨by simp, by simp [h1], by simp [h2], z, hzmem, hzid, hmem⟩
            · rintro ⟨-, -, -, z2, hz2mem, hz2id, hz2aid⟩
              have : z2 = z := hz z2 hz2mem z hzmem (by rw [hz2id, hzid])
              subst this
              exact hz2aid

/-- C7: the desired room temperature is `house_target` plus the active zone
offset exactly when `active_zone_id` names a stored zone whose member list
contains the area id (a truthy id distinct from the SUSPEND sentinel), and
`house_target` otherwise -- in particular when `active_zone_id` is null or
SUSPEND, or when the area id is absent from the resolved zone's list (a
removed area is a non-member, never an error). -/
theorem claim7_desired_room (cfg : Config) (aid : String)
    (hz : ∀ z1, z1 ∈ cfg.zones → ∀ z2, z2 ∈ cfg.zones → z1.id = z2.id → z1 = z2) :
    (desiredRoomForArea cfg aid =
      cfg.houseTarget +
        (if cfg.activeZoneId ≠ none ∧ cfg.activeZoneId ≠ some "" ∧
            cfg.activeZoneId ≠ some SUSPEND_ZONE_ID ∧
            ∃ z ∈ cfg.zones, z.id = cfg.activeZoneId ∧ aid ∈ z.areaIds
          then cfg.activeZoneOffset else 0)) ∧
    ((cfg.activeZoneId = none ∨ cfg.activeZoneId = some SUSPEND_ZONE_ID) →
      desiredRoomForArea cfg aid = cfg.houseTarget) := by
  constructor
  · unfold desiredRoomForArea
    by_cases hin : areaInActiveZone cfg aid = true
    · rw [if_pos hin, if_pos ((areaInActiveZone_iff cfg aid hz).mp hin)]
    · rw [if_neg hin, if_neg (fun hc => hin ((areaInActiveZone_iff cfg aid hz).mpr hc)), add_zero]
  · intro hcase
    unfold desiredRoomForArea
    have hfalse : areaInActiveZone cfg aid = false := by
      unfold areaInActiveZone
      rcases hcase with h | h <;> rw [h]
      simp [SUSPEND_ZONE_ID]
    rw [hfalse]
    simp

/-- C7 witness: a configuration with one zone containing area `a1`; the
offset applies to `a1` and not to the removed area `gone`. -/
theorem claim7_witness :
    (desiredRoomForArea { cfgScen with zones := [{ id := some "z1", areaIds := ["a1"] }], activeZoneId := some "z1" } "a1" =
      ({ cfgScen with zones := [{ id := some "z1", areaIds := ["a1"] }], activeZoneId := some "z1" } : Config).houseTarget +
        (if ({ cfgScen with zones := [{ id := some "z1", areaIds := ["a1"] }], activeZoneId := some "z1" } : Config).activeZoneId ≠ none ∧
            ({ cfgScen with zones := [{ id := some "z1", areaIds := ["a1"] }], activeZoneId := some "z1" } : Config).activeZoneId ≠ some "" ∧
            ({ cfgScen with zones := [{ id := some "z1", areaIds := ["a1"] }], activeZoneId := some "z1" } : Config).activeZoneId ≠ some SUSPEND_ZONE_ID ∧
            ∃ z ∈ ({ cfgScen with zones := [{ id := some "z1", areaIds := ["a1"] }], activeZoneId := some "z1" } : Config).zones,
              z.id = ({ cfgScen with zones := [{ id := some "z1", areaIds := ["a1"] }], activeZoneId := some "z1" } : Config).activeZoneId ∧ "a1" ∈ z.areaIds
          then ({ cfgScen with zones := [{ id := some "z1", areaIds := ["a1"] }], activeZoneId := some "z1" } : Config).activeZoneOffset else 0)) ∧
    ((({ cfgScen with zones := [{ id := some "z1", areaIds := ["a1"] }], activeZoneId := some "z1" } : Config).activeZoneId = none ∨
      ({ cfgScen with zones := [{ id := some "z1", areaIds := ["a1"] }], activeZoneId := some "z1" } : Config).activeZoneId = some SUSPEND_ZONE_ID) →
      desiredRoomForArea { cfgScen with zones := [{ id := some "z1", areaIds := ["a1"] }], activeZoneId := some "z1" } "a1" =
        ({ cfgScen with zones := [{ id := some "z1", areaIds := ["a1"] }], activeZoneId := some "z1" } : Config).houseTarget) :=
  claim7_desired_room _ "a1" (by decide)

/-! ### C4 -/

/-- A heat-supporting switch area. -/
def areaSw : Area where
  id := some "s1"
  tempSensor := "ts"
  actuatorType := some ACTUATOR_SWITCH
  actuatorEntity := some "sw"
  supportsHeat := true

/-- Heat-mode configuration with the switch area only. -/
def cfgSw : Config where
  hvacMode := "heat"
  houseTarget := 21
  areas := [areaSw]
  deadband := 1/2
  minChangeSeconds := 60

/-- Room at 18 (below `desired - deadband = 20.5`), switch currently off. -/
def envSw : Env where
  sensor := fun s => if s = "ts" then some 18 else none
  climateRead := fun _ => {}
  numberRead := fun _ => none
  switchRead := fun e => if e = "sw" then some false else none

/-- Runtime store with a `last_change` stamp 30 seconds ago. -/
def rtSw : Runtime := [("s1", { included := true, lastChange := some 100 })]

/-- C4 counterexample: at time 130 the switch area's `last_change = 100` is
within `min_change_seconds = 60` of now, so the area counts as rate limited
-- yet the periodic pass still issues its `turn_on`, because the switch
dispatch precedes the rate-limit check in the loop body. -/
theorem claim4_counterexample :
    rateLimited rtSw "s1" 60 130 = true ∧
    (controlLoop cfgSw rtSw envSw 130).actions = [Action.turnOn "sw"] := by
  constructor
  · norm_num [rateLimited, rtSw, rtLookup, List.lookup]
  · rw [controlLoop_run_actions _ _ _ _ (by decide) (by decide)]
    norm_num [controlLoopAreas, processArea, cfgSw, envSw, areaSw, rtSw,
      handleSwitch, desiredRoomForArea, areaInActiveZone,
      isAreaIncluded, areaSupportsMode, rtLookup, List.lookup,
      ACTUATOR_CLIMATE, ACTUATOR_NUMBER, ACTUATOR_SWITCH,
      SUSPEND_ZONE_ID, truthyOptStr]
    simp

set_option maxRecDepth 8000 in
/-- C4 (amended): switches are rate limited in neither pass.  The actions a
Switch-kind area produces in the periodic per-area body and in the
immediate-apply per-area body do not depend on the runtime store (in
particular not on any `last_change` timestamp) beyond the area's inclusion
flag, and neither pass updates the runtime store for a switch area. -/
theorem claim4_switch_not_rate_limited (cfg : Config) (env : Env) (now : ℚ)
    (deadband : ℚ) (minChangeSeconds : ℤ) (limit unwind : ℚ) (force : Bool)
    (rt rt2 : Runtime) (area : Area)
    (hsw : area.actuatorType = some ACTUATOR_SWITCH)
    (hincl : isAreaIncluded rt area = isAreaIncluded rt2 area) :
    (processArea cfg env now deadband minChangeSeconds limit unwind rt area).actions =
      (processArea cfg env now deadband minChangeSeconds limit unwind rt2 area).actions ∧
    (processArea cfg env now deadband minChangeSeconds limit unwind rt area).runtime = rt ∧
    (immediateApplyArea cfg env now deadband force rt area).actions =
      (immediateApplyArea cfg env now deadband force rt2 area).actions ∧
    (immediateApplyArea cfg env now deadband force rt area).runtime = rt := by
  refine ⟨?_, ?_, ?_, ?_⟩ <;>
  · cases hid : area.id <;>
    cases hent : area.actuatorEntity <;>
    cases hsen : env.sensor area.tempSensor <;>
    simp only [processArea, immediateApplyArea, hid, hent, hsen, hsw, hincl,
      ACTUATOR_SWITCH, ACTUATOR_CLIMATE, ACTUATOR_NUMBER, Option.some.injEq,
      String.reduceEq, false_and, and_true, true_and, if_false, if_true,
      ite_true, ite_false, Bool.false_eq_true, List.nil_append, List.append_nil] <;>
    first
      | rfl
      | (split_ifs <;> rfl)

/-- C4 witness: the switch scenario, with a second runtime store lacking the
rate-limit stamp, agreeing on the inclusion flag. -/
theorem claim4_witness :
    (processArea cfgSw envSw 130 (1/2) 60 3 2 rtSw areaSw).actions =
      (processArea cfgSw envSw 130 (1/2) 60 3 2 [] areaSw).actions ∧
    (processArea cfgSw envSw 130 (1/2) 60 3 2 rtSw areaSw).runtime = rtSw ∧
    (immediateApplyArea cfgSw envSw 130 (1/2) false rtSw areaSw).actions =
      (immediateApplyArea cfgSw envSw 130 (1/2) false [] areaSw).actions ∧
    (immediateApplyArea cfgSw envSw 130 (1/2) false rtSw areaSw).runtime = rtSw :=
  claim4_switch_not_rate_limited cfgSw envSw 130 (1/2) 60 3 2 false rtSw [] areaSw rfl (by decide)

/-! ### C3 -/

/-- C3 counterexample: Scenario A/B parameters (`step=0.5`, `gain=1`,
target 24) with current setpoint 21.3: the pass writes 22.0, a move of 0.7,
strictly more than `step*gain = 0.5` -- step rounding can enlarge the
nudge beyond `step*gain`. -/
theorem claim3_counterexample :
    climateBandedNudge "heat" areaScen 19 21 (1/2) 3 2 (some (213/10)) = (true, some 22) ∧
    ¬ (|(22 : ℚ) - 213/10| ≤ areaScen.step * areaScen.gain) := by
  constructor
  · norm_num [climateBandedNudge, bandedTargetSp, bandedClampedTarget, computeBandedSetpointTarget,
      roundToStep, round2, roundHalfEven, clamp, areaScen, abs_lt, abs_le, le_abs, lt_abs]
  · norm_num [areaScen, abs_le]

/-- The raw one-step move of the nudge, clamped to the device bounds and
rounded to step, stays within `step*gain` plus the rounding slack of the
current setpoint, provided the current setpoint is within bounds. -/
theorem nudge_move_bound {s g lo hi cur T : ℚ} (hs : 0 < s) (hg : 0 ≤ g)
    (hlo : lo ≤ cur) (hhi : cur ≤ hi) :
    |roundToStep (clamp (if cur < T then min (cur + s * g) T else max (cur - s * g) T) lo hi) s - cur| ≤
      s * g + s / 2 + 1/200 := by
  have hd : 0 ≤ s * g := mul_nonneg hs.le hg
  have h1 : |(if cur < T then min (cur + s * g) T else max (cur - s * g) T) - cur| ≤ s * g := by
    split_ifs with hdir
    · rw [abs_le]
      constructor
      · have h := le_min (le_add_of_nonneg_right hd) hdir.le
        linarith
      · have h := min_le_left (cur + s * g) T
        linarith
    · push_neg at hdir
      rw [abs_le]
      constructor
      · have h := le_max_left (cur - s * g) T
        linarith
      · have h := max_le (by linarith : cur - s * g ≤ cur) hdir
        linarith
  have h2 := clamp_sub_abs hlo hhi (if cur < T then min (cur + s * g) T else max (cur - s * g) T)
  have h3 := roundToStep_sub_abs hs (clamp (if cur < T then min (cur + s * g) T else max (cur - s * g) T) lo hi)
  have h4 := abs_sub_le
    (roundToStep (clamp (if cur < T then min (cur + s * g) T else max (cur - s * g) T) lo hi) s)
    (clamp (if cur < T then min (cur + s * g) T else max (cur - s * g) T) lo hi) cur
  linarith

/-- The one-step nudge never lands strictly beyond the target when the
target is within the device bounds and is a fixed point of step rounding. -/
theorem nudge_no_overshoot {s g lo hi cur T : ℚ} (hs : 0 < s)
    (hT : roundToStep T s = T) (hTlo : lo ≤ T) (hThi : T ≤ hi) :
    (cur < T →
      roundToStep (clamp (if cur < T then min (cur + s * g) T else max (cur - s * g) T) lo hi) s ≤ T) ∧
    (T < cur →
      T ≤ roundToStep (clamp (if cur < T then min (cur + s * g) T else max (cur - s * g) T) lo hi) s) := by
  constructor
  · intro hdir
    rw [if_pos hdir]
    have h2 : clamp (min (cur + s * g) T) lo hi ≤ clamp T lo hi :=
      clamp_mono (min_le_right _ _) lo hi
    rw [clamp_eq_self hTlo hThi] at h2
    have := roundToStep_mono hs h2
    rw [hT] at this
    exact this
  · intro hdir
    rw [if_neg (not_lt.mpr hdir.le)]
    have h2 : clamp T lo hi ≤ clamp (max (cur - s * g) T) lo hi :=
      clamp_mono (le_max_right _ _) lo hi
    rw [clamp_eq_self hTlo hThi] at h2
    have := roundToStep_mono hs h2
    rw [hT] at this
    exact this

/-- C3 (amended): when a banded-nudge pass with known in-bounds current
setpoint commits a write, the written value moves from the current value by
at most `step*gain` plus the step-rounding slack `step/2 + 0.005` (the raw
step before rounding is at most `step*gain`), and it never lands strictly
beyond the target provided the target is within the device bounds and is
unchanged by step rounding (which holds for every step above 0.01). -/
theorem claim3_bounded_step_no_overshoot (mode : String) (area : Area)
    (roomTemp desiredRoom deadband limit unwind cur w : ℚ)
    (hrun : climateBandedNudge mode area roomTemp desiredRoom deadband limit unwind (some cur) =
      (true, some w))
    (hstep : 0 < area.step) (hgain : 0 ≤ area.gain)
    (hlo : area.minSetpoint ≤ cur) (hhi : cur ≤ area.maxSetpoint) :
    |w - cur| ≤ area.step * area.gain + area.step / 2 + 1/200 ∧
    (roundToStep (bandedTargetSp mode area roomTemp desiredRoom limit unwind) area.step =
        bandedTargetSp mode area roomTemp desiredRoom limit unwind →
      area.minSetpoint ≤ bandedTargetSp mode area roomTemp desiredRoom limit unwind →
      bandedTargetSp mode area roomTemp desiredRoom limit unwind ≤ area.maxSetpoint →
      (cur < bandedTargetSp mode area roomTemp desiredRoom limit unwind →
        w ≤ bandedTargetSp mode area roomTemp desiredRoom limit unwind) ∧
      (bandedTargetSp mode area roomTemp desiredRoom limit unwind < cur →
        bandedTargetSp mode area roomTemp desiredRoom limit unwind ≤ w)) := by
  simp only [climateBandedNudge] at hrun
  by_cases h1 : |cur - bandedTargetSp mode area roomTemp desiredRoom limit unwind| < 1/1000
  · rw [if_pos h1] at hrun
    exact absurd hrun (by simp)
  · rw [if_neg h1] at hrun
    set n := roundToStep
        (clamp
          (if cur < bandedTargetSp mode area roomTemp desiredRoom limit unwind then
            min (cur + area.step * area.gain) (bandedTargetSp mode area roomTemp desiredRoom limit unwind)
          else
            max (cur - area.step * area.gain) (bandedTargetSp mode area roomTemp desiredRoom limit unwind))
          area.minSetpoint area.maxSetpoint)
        area.step with hN
    by_cases h2 : |roomTemp - desiredRoom| ≤ deadband ∧
        |n - roundToStep (clamp (desiredRoom + area.bias) area.minSetpoint area.maxSetpoint) area.step| < 1/1000
    · rw [if_pos h2] at hrun
      exact absurd hrun (by simp)
    · rw [if_neg h2] at hrun
      by_cases h3 : |n - cur| < 1/1000
      · rw [if_pos h3] at hrun
        exact absurd hrun (by simp)
      · rw [if_neg h3] at hrun
        simp only [Prod.mk.injEq, Option.some.injEq, true_and] at hrun
        subst hrun
        rw [hN]
        refine ⟨nudge_move_bound hstep hgain hlo hhi, fun hT hTlo hThi => ?_⟩
        exact nudge_no_overshoot hstep hT hTlo hThi

/-- C3 witness: Scenario B (current setpoint 21, write 21.5 toward target
24) instantiates the amended bound. -/
theorem claim3_witness :
    |(43/2 : ℚ) - 21| ≤ areaScen.step * areaScen.gain + areaScen.step / 2 + 1/200 ∧
    (roundToStep (bandedTargetSp "heat" areaScen 19 21 3 2) areaScen.step =
        bandedTargetSp "heat" areaScen 19 21 3 2 →
      areaScen.minSetpoint ≤ bandedTargetSp "heat" areaScen 19 21 3 2 →
      bandedTargetSp "heat" areaScen 19 21 3 2 ≤ areaScen.maxSetpoint →
      ((21:ℚ) < bandedTargetSp "heat" areaScen 19 21 3 2 →
        (43/2:ℚ) ≤ bandedTargetSp "heat" areaScen 19 21 3 2) ∧
      (bandedTargetSp "heat" areaScen 19 21 3 2 < 21 →
        bandedTargetSp "heat" areaScen 19 21 3 2 ≤ 43/2)) :=
  claim3_bounded_step_no_overshoot "heat" areaScen 19 21 (1/2) 3 2 21 (43/2)
    (by norm_num [climateBandedNudge, bandedTargetSp, bandedClampedTarget,
      computeBandedSetpointTarget, roundToStep, round2, roundHalfEven, clamp, areaScen,
      abs_lt, abs_le, le_abs, lt_abs])
    (by norm_num [areaScen]) (by norm_num [areaScen])
    (by norm_num [areaScen]) (by norm_num [areaScen])

/-! ### C9 -/

theorem no_setpoint_append {l1 l2 : List Action}
    (h1 : ∀ a ∈ l1, isSetpointWrite a = false) (h2 : ∀ a ∈ l2, isSetpointWrite a = false) :
    ∀ a ∈ l1 ++ l2, isSetpointWrite a = false := by
  intro a ha
  rcases List.mem_append.mp ha with h | h
  · exact h1 a h
  · exact h2 a h

theorem handleSwitch_no_setpoint (mode entity : String) (roomTemp desired deadband : ℚ)
    (isOn : Option Bool) :
    ∀ act ∈ handleSwitch mode entity roomTemp desired deadband isOn,
      isSetpointWrite act = false := by
  intro act hact
  unfold handleSwitch at hact
  rcases isOn with _ | b
  · simp at hact
  · dsimp only at hact
    have hor : act = Action.turnOn entity ∨ act = Action.turnOff entity := by
      by_cases h1 : mode = "heat"
      · rw [if_pos h1] at hact
        by_cases h2 : roomTemp < desired - deadband ∧ b = false
        · rw [if_pos h2] at hact
          simp at hact
          exact Or.inl hact
        · rw [if_neg h2] at hact
          by_cases h3 : desired + deadband < roomTemp ∧ b = true
          · rw [if_pos h3] at hact
            simp at hact
            exact Or.inr hact
          · rw [if_neg h3] at hact
            simp at hact
      · rw [if_neg h1] at hact
        by_cases h2 : desired + deadband < roomTemp ∧ b = false
        · rw [if_pos h2] at hact
          simp at hact
          exact Or.inl hact
        · rw [if_neg h2] at hact
          by_cases h3 : roomTemp < desired - deadband ∧ b = true
          · rw [if_pos h3] at hact
            simp at hact
            exact Or.inr hact
          · rw [if_neg h3] at hact
            simp at hact
    rcases hor with h | h <;> subst h <;> rfl

theorem forceClimateMode_no_setpoint (env : Env) (mode entity : String) :
    ∀ act ∈ forceClimateMode env mode entity, isSetpointWrite act = false := by
  intro act hact
  unfold forceClimateMode at hact
  dsimp only at hact
  cases hsel : selectSupportedHvacMode (env.climateRead entity).hvacModes mode with
  | none =>
      rw [hsel] at hact
      simp at hact
  | some target =>
      rw [hsel] at hact
      dsimp only at hact
      split_ifs at hact <;> simp at hact
      subst hact
      rfl

theorem rtLookup_append_of_none (rt : Runtime) (aid : String) (e : AreaRuntimeEntry)
    (h : rtLookup rt aid = none) : rtLookup (rt ++ [(aid, e)]) aid = some e := by
  induction rt with
  | nil => simp [rtLookup, List.lookup]
  | cons p rest ih =>
      obtain ⟨k, v⟩ := p
      unfold rtLookup List.lookup at h ⊢
      cases hk : (aid == k) with
      | true => rw [hk] at h; simp at h
      | false =>
          rw [hk] at h
          simp only [List.cons_append, hk]
          exact ih h

theorem rtLookup_rtReplace_self (rt : Runtime) (aid : String) (e e0 : AreaRuntimeEntry)
    (h : rtLookup rt aid = some e0) : rtLookup (rtReplace rt aid e) aid = some e := by
  induction rt with
  | nil => simp [rtLookup, List.lookup] at h
  | cons p rest ih =>
      obtain ⟨k, v⟩ := p
      unfold rtLookup List.lookup at h
      unfold rtReplace
      by_cases hk : k = aid
      · subst hk
        simp [rtLookup, List.lookup]
      · rw [if_neg hk]
        unfold rtLookup List.lookup
        have hbk : (aid == k) = false := by
          simp [beq_iff_eq]
          exact fun hc => hk hc.symm
        rw [hbk] at h ⊢
        exact ih h

theorem rtLookup_rtSetLastChange (rt : Runtime) (aid : String) (t : ℚ) :
    ∃ e, rtLookup (rtSetLastChange rt aid t) aid = some e ∧ e.lastChange = some t := by
  unfold rtSetLastChange
  cases h : rtLookup rt aid with
  | none => exact ⟨_, rtLookup_append_of_none rt aid _ h, rfl⟩
  | some e0 => exact ⟨_, rtLookup_rtReplace_self rt aid _ e0 h, rfl⟩

theorem rtSetdefault_of_some (rt : Runtime) (aid : String) (e0 : AreaRuntimeEntry)
    (h : rtLookup rt aid = some e0) : rtSetdefault rt aid = rt := by
  unfold rtSetdefault
  rw [h]

/-- Outcome dichotomy of the immediate-apply per-area body: either no
setpoint write is issued and the runtime store is untouched, or the area's
`last_change` is stamped with the pass time. -/
theorem immediateApplyArea_cases (cfg : Config) (env : Env) (now deadband : ℚ) (force : Bool)
    (rt : Runtime) (area : Area) (aid : String) (hid : area.id = some aid) :
    ((∀ act ∈ (immediateApplyArea cfg env now deadband force rt area).actions,
        isSetpointWrite act = false) ∧
      (immediateApplyArea cfg env now deadband force rt area).runtime = rt) ∨
    (immediateApplyArea cfg env now deadband force rt area).runtime =
      rtSetLastChange rt aid now := by
  unfold immediateApplyArea
  rw [hid]
  dsimp only
  by_cases h0 : aid = ""
  · rw [if_pos h0]
    exact Or.inl ⟨by simp, rfl⟩
  · rw [if_neg h0]
    by_cases h1 : (!isAreaIncluded rt area) = true
    · rw [if_pos h1]
      exact Or.inl ⟨by simp, rfl⟩
    · rw [if_neg h1]
      by_cases h2 : (!areaSupportsMode cfg.hvacMode area) = true
      · rw [if_pos h2]
        exact Or.inl ⟨by simp, rfl⟩
      · rw [if_neg h2]
        cases hent : area.actuatorEntity with
        | none => exact Or.inl ⟨by simp, rfl⟩
        | some ent =>
            dsimp only
            by_cases h3 : ent = ""
            · rw [if_pos h3]
              exact Or.inl ⟨by simp, rfl⟩
            · rw [if_neg h3]
              cases hsen : env.sensor area.tempSensor with
              | none => exact Or.inl ⟨by simp, rfl⟩
              | some roomTemp =>
                  dsimp only
                  by_cases h4 : area.actuatorType = some ACTUATOR_SWITCH
                  · rw [if_pos h4]
                    exact Or.inl ⟨handleSwitch_no_setpoint _ _ _ _ _ _, rfl⟩
                  · rw [if_neg h4]
                    by_cases h5 : area.actuatorType = some ACTUATOR_CLIMATE
                    · rw [if_pos h5]
                      cases hread : (env.climateRead ent).setpoint with
                      | none => exact Or.inr rfl
                      | some sp =>
                          dsimp only
                          by_cases h6 : force = true ∨ 1/1000 ≤ |sp -
                              roundToStep (clamp (desiredRoomForArea cfg aid + area.bias)
                                area.minSetpoint area.maxSetpoint) area.step|
                          · rw [if_pos h6]
                            exact Or.inr rfl
                          · rw [if_neg h6]
                            exact Or.inl ⟨forceClimateMode_no_setpoint _ _ _, rfl⟩
                    · rw [if_neg h5]
                      by_cases h7 : area.actuatorType = some ACTUATOR_NUMBER
                      · rw [if_pos h7]
                        cases hread : env.numberRead ent with
                        | none => exact Or.inr rfl
                        | some sp =>
                            dsimp only
                            by_cases h8 : force = true ∨ 1/1000 ≤ |sp -
                                roundToStep (clamp (desiredRoomForArea cfg aid + area.bias)
                                  area.minSetpoint area.maxSetpoint) area.step|
                            · rw [if_pos h8]
                              exact Or.inr rfl
                            · rw [if_neg h8]
                              exact Or.inl ⟨by simp, rfl⟩
                      · rw [if_neg h7]
                        exact Or.inl ⟨by simp, rfl⟩

theorem forceOrNil_no_setpoint (env : Env) (mode ent : String) (c : Prop) [Decidable c] :
    ∀ act ∈ (if c then forceClimateMode env mode ent else []), isSetpointWrite act = false := by
  intro act hact
  split_ifs at hact
  · exact forceClimateMode_no_setpoint _ _ _ act hact
  · simp at hact

/-- A rate-limited area contributes no setpoint write to a periodic pass. -/
theorem processArea_no_setpoint_of_rate_limited (cfg : Config) (env : Env) (now deadband : ℚ)
    (minChangeSeconds : ℤ) (limit unwind : ℚ) (rt : Runtime) (area : Area) (aid : String)
    (hid : area.id = some aid)
    (hrl : rateLimited rt aid minChangeSeconds now = true) :
    ∀ act ∈ (processArea cfg env now deadband minChangeSeconds limit unwind rt area).actions,
      isSetpointWrite act = false := by
  have hsd : rtSetdefault rt aid = rt := by
    unfold rateLimited at hrl
    cases h : rtLookup rt aid with
    | none => rw [h] at hrl; simp at hrl
    | some e0 => exact rtSetdefault_of_some rt aid e0 h
  have hrl1 : rateLimited (rtSetdefault rt aid) aid minChangeSeconds now = true := by
    rw [hsd]
    exact hrl
  unfold processArea
  rw [hid]
  dsimp only
  by_cases h0 : aid = ""
  · rw [if_pos h0]
    simp
  · rw [if_neg h0]
    by_cases h1 : (!isAreaIncluded rt area) = true
    · rw [if_pos h1]
      simp
    · rw [if_neg h1]
      by_cases h2 : (!areaSupportsMode cfg.hvacMode area) = true
      · rw [if_pos h2]
        simp
      · rw [if_neg h2]
        cases hent : area.actuatorEntity with
        | none =>
            dsimp only
            cases hsen : env.sensor area.tempSensor with
            | none => simp
            | some roomTemp =>
                dsimp only
                by_cases h4 : area.actuatorType = some ACTUATOR_SWITCH
                · rw [if_pos h4]
                  simp
                · rw [if_neg h4, if_pos hrl1]
                  simp
        | some ent =>
            dsimp only
            cases hsen : env.sensor area.tempSensor with
            | none => exact forceOrNil_no_setpoint env cfg.hvacMode ent _
            | some roomTemp =>
                dsimp only
                by_cases h4 : area.actuatorType = some ACTUATOR_SWITCH
                · rw [if_pos h4]
                  exact no_setpoint_append (forceOrNil_no_setpoint env cfg.hvacMode ent _)
                    (handleSwitch_no_setpoint _ _ _ _ _ _)
                · rw [if_neg h4, if_pos hrl1]
                  exact forceOrNil_no_setpoint env cfg.hvacMode ent _

/-- C9: every setpoint write committed by the immediate-apply per-area body
stamps that area's `last_change` with the pass time `now`; consequently the
follow-up periodic pass, run at any time `t` within `min_change_seconds` of
`now` on the resulting runtime store, issues no setpoint write for that
area (only non-setpoint actions such as mode forcing may occur). -/
theorem claim9_immediate_write_rate_limits (cfg : Config) (env env2 : Env)
    (now t deadband deadband2 limit unwind : ℚ) (force : Bool)
    (rt : Runtime) (area : Area) (aid : String)
    (hid : area.id = some aid)
    (hwrite : ∃ act ∈ (immediateApplyArea cfg env now deadband force rt area).actions,
      isSetpointWrite act = true)
    (ht : t - now < (cfg.minChangeSeconds : ℚ)) :
    (∃ e, rtLookup (immediateApplyArea cfg env now deadband force rt area).runtime aid = some e ∧
      e.lastChange = some now) ∧
    ∀ act ∈ (processArea cfg env2 t deadband2 cfg.minChangeSeconds limit unwind
        (immediateApplyArea cfg env now deadband force rt area).runtime area).actions,
      isSetpointWrite act = false := by
  rcases immediateApplyArea_cases cfg env now deadband force rt area aid hid with ⟨hno, -⟩ | hrt
  · obtain ⟨act, hact, hsp⟩ := hwrite
    rw [hno act hact] at hsp
    exact absurd hsp (by simp)
  · rw [hrt]
    obtain ⟨e, he, helc⟩ := rtLookup_rtSetLastChange rt aid now
    refine ⟨⟨e, he, helc⟩, ?_⟩
    apply processArea_no_setpoint_of_rate_limited cfg env2 t deadband2 cfg.minChangeSeconds
      limit unwind _ area aid hid
    unfold rateLimited
    rw [he]
    dsimp only
    rw [helc]
    simpa using ht

/-- C9 witness: a forced immediate apply on the Scenario A configuration at
time 0 writes the rounded center 21, stamps `last_change = 0`, and a
follow-up periodic pass at time 30 (within `min_change_seconds = 60`)
issues no setpoint write for the area. -/
theorem claim9_witness :
    (∃ e, rtLookup (immediateApplyArea cfgScen envScen 0 (1/2) true [("a1", {})] areaScen).runtime "a1" =
        some e ∧ e.lastChange = some 0) ∧
    ∀ act ∈ (processArea cfgScen envScen 30 (1/2) cfgScen.minChangeSeconds 3 2
        (immediateApplyArea cfgScen envScen 0 (1/2) true [("a1", {})] areaScen).runtime areaScen).actions,
      isSetpointWrite act = false :=
  claim9_immediate_write_rate_limits cfgScen envScen envScen 0 30 (1/2) (1/2) 3 2 true
    [("a1", {})] areaScen "a1" rfl
    (by
      refine ⟨Action.setTemperature "c1" 21, ?_, rfl⟩
      have hact : (immediateApplyArea cfgScen envScen 0 (1/2) true [("a1", {})] areaScen).actions =
          [Action.setTemperature "c1" 21] := by
        norm_num [immediateApplyArea, cfgScen, envScen, areaScen, desiredRoomForArea,
          areaInActiveZone, isAreaIncluded, areaSupportsMode, rtLookup, List.lookup,
          rtSetLastChange, rtReplace, forceClimateMode, selectSupportedHvacMode,
          roundToStep, round2, roundHalfEven, clamp,
          ACTUATOR_CLIMATE, ACTUATOR_NUMBER, ACTUATOR_SWITCH, SUSPEND_ZONE_ID, truthyOptStr]
        try simp
      rw [hact]
      simp)
    (by norm_num [cfgScen])

end AdaptiveClima
